import Mathlib

/-!
# NTFS filesystem adapter of vold (`fs/Ntfs.cpp`)

A shallow embedding of `android::vold::ntfs::{IsSupported, Check, Mount, Format}`.

The four functions are glue around collaborators that live outside the file:
`access(2)`, `mount(2)`, `ForkExecvp`, `IsFilesystemSupported` and the logger.
The embedding passes an explicit `State` (the thread's `errno` and the trace of
every collaborator call and log line made so far) and takes the collaborators
as an `Env` of oracles.  An oracle sees the whole state at the moment of the
call, so quantifying over `Env` covers every possible behaviour of the outside
world, including behaviour that depends on earlier calls.
-/

namespace Ntfs

/-! ## Constants -/

/-- Source line 34: `static const char* kFsckPath`. -/
def kFsckPath : String := "/system/bin/fsck.ntfs"

/-- Source line 35: `static const char* kMkfsPath`. -/
def kMkfsPath : String := "/system/bin/mkfs.ntfs"

/-- Value of `X_OK` in `<unistd.h>` (system header). -/
def X_OK : Nat := 1

/-- Value of `EIO` in the Linux `<errno.h>` (system header). -/
def EIO : Int := 5

/-- Value of `EROFS` in the Linux `<errno.h>` (system header). -/
def EROFS : Int := 30

/-- Value of `MS_RDONLY` in the Linux `<sys/mount.h>` (system header). -/
def MS_RDONLY : Nat := 1

/-- Value of `MS_NOSUID` in the Linux `<sys/mount.h>` (system header). -/
def MS_NOSUID : Nat := 2

/-- Value of `MS_NODEV` in the Linux `<sys/mount.h>` (system header). -/
def MS_NODEV : Nat := 4

/-- Value of `MS_NOEXEC` in the Linux `<sys/mount.h>` (system header). -/
def MS_NOEXEC : Nat := 8

/-- Value of `MS_REMOUNT` in the Linux `<sys/mount.h>` (system header). -/
def MS_REMOUNT : Nat := 32

/-- Value of `MS_DIRSYNC` in the Linux `<sys/mount.h>` (system header). -/
def MS_DIRSYNC : Nat := 128

/-- Value of `MS_NOATIME` in the Linux `<sys/mount.h>` (system header). -/
def MS_NOATIME : Nat := 1024

/-! ## printf-style formatting (`android::base::StringPrintf`) -/

/-- A C `int` is a 32-bit two's complement value. -/
def IsInt32 (v : Int) : Prop := -2147483648 ≤ v ∧ v ≤ 2147483647

instance (v : Int) : Decidable (IsInt32 v) := by
  unfold IsInt32; infer_instance

/-- A C `unsigned int` is a 32-bit value. -/
def IsUInt32 (v : Nat) : Prop := v < 4294967296

instance (v : Nat) : Decidable (IsUInt32 v) := by
  unfold IsUInt32; infer_instance

/-- Reinterpretation of an `int` as `unsigned int` (what `%o` does with its argument). -/
def toUInt32 (v : Int) : Nat := (v % 4294967296).toNat

/-- An argument of a variadic printf-style call, tagged with its C type. -/
inductive PrintfArg where
  | int (v : Int)
  | uint (v : Nat)

/-- The digit loop of an integer conversion: emit `n % base`, divide, stop at zero.
At most `fuel` digits are produced; a 32-bit value needs at most 32. -/
def digitsLoop (base : Nat) : Nat → Nat → List Char → List Char
  | 0, _, acc => acc
  | fuel + 1, n, acc =>
    let acc1 := Nat.digitChar (n % base) :: acc
    if n / base = 0 then acc1 else digitsLoop base fuel (n / base) acc1

/-- Conversions `%u` (base 10) and `%o` (base 8) of an `unsigned int`: digits only,
no prefix, no padding. -/
def convUnsigned (base : Nat) (v : Nat) : List Char :=
  digitsLoop base 32 (v % 4294967296) []

/-- Conversion `%d` of an `int`: a minus sign for negative values, then the digits
of the magnitude. -/
def convSigned (v : Int) : List Char :=
  if v < 0 then '-' :: digitsLoop 10 32 (-v).toNat [] else digitsLoop 10 32 v.toNat []

/-- Interpretation of a format string, for the conversions the file uses: `%d`, `%o` and
`%u` consume one argument each, every other character is copied. -/
def vformat : List Char → List PrintfArg → List Char
  | '%' :: 'd' :: fmt, PrintfArg.int v :: args => convSigned v ++ vformat fmt args
  | '%' :: 'o' :: fmt, PrintfArg.int v :: args => convUnsigned 8 (toUInt32 v) ++ vformat fmt args
  | '%' :: 'u' :: fmt, PrintfArg.uint v :: args => convUnsigned 10 v ++ vformat fmt args
  | c :: fmt, args => c :: vformat fmt args
  | [], _ => []

/-- The function `android::base::StringPrintf(fmt, ...)`. -/
def StringPrintf (fmt : String) (args : List PrintfArg) : String :=
  String.mk (vformat fmt.data args)

/-! ## World model -/

/-- Log severities used by the file (`LOG(INFO)`, `LOG(ERROR)`, `PLOG(ERROR)`). -/
inductive LogSeverity where
  | INFO
  | ERROR
  deriving DecidableEq

/-- The arguments of one `mount(2)` call. -/
structure MountCall where
  source : String
  target : String
  fstype : String
  flags : Nat
  data : String
  deriving DecidableEq

/-- One observable action of the adapter, with the collaborator's answer.
For `log`, `perrno` is `some errno` when the line comes from `PLOG` (which appends
`strerror(errno)`) and `none` when it comes from `LOG`. -/
inductive Event where
  | access (path : String) (mode : Nat) (ret : Int)
  | isFilesystemSupported (fsType : String) (ret : Bool)
  | forkExecvp (args : List String) (captureOutput : Bool) (context : Option String) (ret : Int)
  | mount (call : MountCall) (ret : Int) (errnoAfter : Int)
  | log (severity : LogSeverity) (message : String) (perrno : Option Int)
  deriving DecidableEq

/-- The state threaded through a call: `errno` and everything done so far. -/
structure State where
  errno : Int
  trace : List Event

/-- The collaborators.  Every oracle returns its result and the value `errno` has
after the call.  `sFsckUntrustedContext` is the global declared in `Utils.h`. -/
structure Env where
  sFsckUntrustedContext : Option String
  access : State → String → Nat → Int × Int
  isFilesystemSupported : State → String → Bool × Int
  forkExecvp : State → List String → Bool → Option String → Int × Int
  mount : State → MountCall → Int × Int

/-- Call `access(path, mode)`. -/
def sysAccess (env : Env) (path : String) (mode : Nat) (s : State) : Int × State :=
  let r := env.access s path mode
  (r.1, { errno := r.2, trace := s.trace ++ [Event.access path mode r.1] })

/-- Call `IsFilesystemSupported(fsType)`. -/
def callIsFilesystemSupported (env : Env) (fsType : String) (s : State) : Bool × State :=
  let r := env.isFilesystemSupported s fsType
  (r.1, { errno := r.2, trace := s.trace ++ [Event.isFilesystemSupported fsType r.1] })

/-- Call `ForkExecvp(args, output, context)`; `captureOutput = false` is `output == nullptr`,
`context = none` is `context == nullptr`. -/
def callForkExecvp (env : Env) (args : List String) (captureOutput : Bool)
    (context : Option String) (s : State) : Int × State :=
  let r := env.forkExecvp s args captureOutput context
  (r.1, { errno := r.2, trace := s.trace ++ [Event.forkExecvp args captureOutput context r.1] })

/-- Call `mount(source, target, fstype, flags, data)`. -/
def sysMount (env : Env) (call : MountCall) (s : State) : Int × State :=
  let r := env.mount s call
  (r.1, { errno := r.2, trace := s.trace ++ [Event.mount call r.1 r.2] })

/-- The statement `LOG(severity) << message`; `errno` is preserved. -/
def LOG (severity : LogSeverity) (message : String) (s : State) : State :=
  { s with trace := s.trace ++ [Event.log severity message none] }

/-- The statement `PLOG(severity) << message`; the line carries the current `errno`,
which is preserved. -/
def PLOG (severity : LogSeverity) (message : String) (s : State) : State :=
  { s with trace := s.trace ++ [Event.log severity message (some s.errno)] }

/-- Assignment `errno = v`. -/
def setErrno (v : Int) (s : State) : State := { s with errno := v }

/-! ## The adapter -/

/-- Source lines 37-40: `bool IsSupported()`.  The operator `&&` short-circuits. -/
def IsSupported (env : Env) (s : State) : Bool × State :=
  let a1 := sysAccess env kFsckPath X_OK s
  if a1.1 = 0 then
    let a2 := sysAccess env kMkfsPath X_OK a1.2
    if a2.1 = 0 then
      callIsFilesystemSupported env "ntfs" a2.2
    else (false, a2.2)
  else (false, a1.2)

/-- Source lines 42-56: `status_t Check(const std::string& source)`. -/
def Check (env : Env) (source : String) (s : State) : Int × State :=
  let cmd : List String := [kFsckPath, source]
  let r := callForkExecvp env cmd false env.sFsckUntrustedContext s
  let rc := r.1
  if rc = 0 then
    (0, LOG LogSeverity.INFO "Check NTFS OK" r.2)
  else
    let s1 := LOG LogSeverity.ERROR ("Check NTFS failed (code " ++ toString rc ++ ")") r.2
    let s2 := setErrno EIO s1
    (-1, s2)

/-- Source lines 58-74: `status_t Mount(...)`.  The last parameter, `createLost`, is unnamed
in the source and unused. -/
def Mount (env : Env) (source target : String) (ro remount executable : Bool)
    (ownerUid ownerGid permMask : Int) (_createLost : Bool) (s : State) : Int × State :=
  let mountData := StringPrintf "nls=utf8,uid=%d,gid=%d,fmask=%o,dmask=%o"
    [PrintfArg.int ownerUid, PrintfArg.int ownerGid, PrintfArg.int permMask,
      PrintfArg.int permMask]
  let flags := MS_NODEV ||| MS_NOSUID ||| MS_DIRSYNC ||| MS_NOATIME
  let flags := flags ||| (if executable then 0 else MS_NOEXEC)
  let flags := flags ||| (if ro then MS_RDONLY else 0)
  let flags := flags ||| (if remount then MS_REMOUNT else 0)
  let r := sysMount env ⟨source, target, "ntfs", flags, mountData⟩ s
  if r.1 ≠ 0 ∧ ro = false ∧ r.2.errno = EROFS then
    let s1 := PLOG LogSeverity.ERROR ("Mounting " ++ source ++ " failed; attempting read-only") r.2
    let flags := flags ||| MS_RDONLY
    sysMount env ⟨source, target, "ntfs", flags, mountData⟩ s1
  else r

/-- Source lines 76-98: `status_t Format(const std::string& source, unsigned int numSectors)`. -/
def Format (env : Env) (source : String) (numSectors : Nat) (s : State) : Int × State :=
  let a := sysAccess env kMkfsPath X_OK s
  if a.1 ≠ 0 then
    (-1, PLOG LogSeverity.ERROR ("Problem accessing " ++ kMkfsPath) a.2)
  else
    let cmd : List String := [kMkfsPath, source]
    let cmd := if numSectors ≠ 0 then cmd ++ [StringPrintf "%u" [PrintfArg.uint numSectors]] else cmd
    let r := callForkExecvp env cmd false none a.2
    let rc := r.1
    if rc = 0 then
      (rc, LOG LogSeverity.INFO "Filesystem formatted" r.2)
    else
      let s1 := LOG LogSeverity.ERROR ("Format failed (code " ++ toString rc ++ ")") r.2
      let s2 := setErrno EIO s1
      (-1, s2)

/-! ## Observations on traces -/

/-- The events a call appended to the trace it started from. -/
def emitted (before after : State) : List Event := after.trace.drop before.trace.length

/-- The `mount(2)` calls among a list of events, in order. -/
def mountCalls : List Event → List MountCall
  | [] => []
  | Event.mount c _ _ :: es => c :: mountCalls es
  | _ :: es => mountCalls es

/-- The statuses returned by the `mount(2)` calls among a list of events, in order. -/
def mountStatuses : List Event → List Int
  | [] => []
  | Event.mount _ ret _ :: es => ret :: mountStatuses es
  | _ :: es => mountStatuses es

/-- The argument vectors of the child processes spawned among a list of events. -/
def spawned : List Event → List (List String)
  | [] => []
  | Event.forkExecvp args _ _ _ :: es => args :: spawned es
  | _ :: es => spawned es

/-- The error-level log lines among a list of events. -/
def errorLogs : List Event → List String
  | [] => []
  | Event.log LogSeverity.ERROR msg _ :: es => msg :: errorLogs es
  | _ :: es => errorLogs es

/-- The exit codes of the child processes spawned among a list of events. -/
def exitCodes : List Event → List Int
  | [] => []
  | Event.forkExecvp _ _ _ ret :: es => ret :: exitCodes es
  | _ :: es => exitCodes es

/-- The value of the local `mountData` of `Mount` (source lines 60-61). -/
def mountDataOf (ownerUid ownerGid permMask : Int) : String :=
  StringPrintf "nls=utf8,uid=%d,gid=%d,fmask=%o,dmask=%o"
    [PrintfArg.int ownerUid, PrintfArg.int ownerGid, PrintfArg.int permMask,
      PrintfArg.int permMask]

/-- The value of the local `flags` of `Mount` when the first mount call is made
(source lines 62-65). -/
def mountFlagsOf (ro remount executable : Bool) : Nat :=
  MS_NODEV ||| MS_NOSUID ||| MS_DIRSYNC ||| MS_NOATIME ||| (if executable then 0 else MS_NOEXEC)
    ||| (if ro then MS_RDONLY else 0) ||| (if remount then MS_REMOUNT else 0)

/-- The specification's reading of `<uid>` and `<gid>`: the signed decimal numeral. -/
def decimalString (v : Int) : String := toString v

/-- The specification's reading of `<mask:octal>`: the value taken as an unsigned 32-bit
number (a negative `int` stands for `v + 2^32`), written in base 8 without prefix or
padding. -/
def octalString (v : Int) : String :=
  String.mk (Nat.toDigits 8 (if v < 0 then v + 4294967296 else v).toNat)

/-- A test environment: `access` answers `acc`, the filesystem query answers `sup`,
every child exits with `exitCode`, and `mount` answers `first` while no mount call
is in the trace and `later` afterwards. -/
def stubEnv (acc : Int × Int) (sup : Bool) (exitCode : Int) (first later : Int × Int) : Env where
  sFsckUntrustedContext := some "u:r:fsck_untrusted:s0"
  access := fun _ _ _ => acc
  isFilesystemSupported := fun s _ => (sup, s.errno)
  forkExecvp := fun s _ _ _ => (exitCode, s.errno)
  mount := fun s _ => if mountCalls s.trace = [] then first else later

/-- The initial state of the examples: `errno = 0`, nothing done. -/
def s0 : State := ⟨0, []⟩


/-! ## Auxiliary facts -/

theorem emitted_append (s : State) (e : Int) (l : List Event) :
    emitted s ⟨e, s.trace ++ l⟩ = l := by
  simp [emitted]

theorem digitsLoop_eq_toDigitsCore (b : Nat) (hb : 2 ≤ b) :
    ∀ (f g n : Nat) (acc : List Char), n < 2 ^ f → n < 2 ^ g → 0 < f → 0 < g →
      digitsLoop b f n acc = Nat.toDigitsCore b g n acc := by
  intro f
  induction f with
  | zero => intro g n acc _ _ hf; omega
  | succ f ih =>
    intro g n acc hnf hng _ hg
    cases g with
    | zero => omega
    | succ g =>
      simp only [digitsLoop, Nat.toDigitsCore]
      by_cases h0 : n / b = 0
      · simp [h0]
      · simp only [h0, if_false]
        have hle : n / b ≤ n / 2 := Nat.div_le_div_left hb (by decide)
        have h1 : 1 ≤ n / b := Nat.one_le_iff_ne_zero.mpr h0
        have hf2 : n / 2 < 2 ^ f := by
          rw [Nat.div_lt_iff_lt_mul (by decide)]; rw [Nat.pow_succ] at hnf; exact hnf
        have hg2 : n / 2 < 2 ^ g := by
          rw [Nat.div_lt_iff_lt_mul (by decide)]; rw [Nat.pow_succ] at hng; exact hng
        have hfpos : 0 < f := by
          rcases Nat.eq_zero_or_pos f with h | h
          · subst h; simp at hf2; omega
          · exact h
        have hgpos : 0 < g := by
          rcases Nat.eq_zero_or_pos g with h | h
          · subst h; simp at hg2; omega
          · exact h
        exact ih g (n / b) _ (by omega) (by omega) hfpos hgpos

theorem digitsLoop_eq_toDigits (b : Nat) (hb : 2 ≤ b) (n : Nat) (h : n < 4294967296) :
    digitsLoop b 32 n [] = Nat.toDigits b n := by
  unfold Nat.toDigits
  apply digitsLoop_eq_toDigitsCore b hb
  · exact h
  · exact Nat.lt_of_lt_of_le (Nat.lt_two_pow n) (Nat.pow_le_pow_right (by decide) (Nat.le_succ n))
  · decide
  · exact Nat.succ_pos n

theorem convUnsigned_eq (b : Nat) (hb : 2 ≤ b) (n : Nat) (h : IsUInt32 n) :
    convUnsigned b n = Nat.toDigits b n := by
  unfold IsUInt32 at h
  unfold convUnsigned
  rw [Nat.mod_eq_of_lt h]
  exact digitsLoop_eq_toDigits b hb n h

theorem convSigned_eq (v : Int) (h : IsInt32 v) : String.mk (convSigned v) = decimalString v := by
  unfold IsInt32 at h
  unfold convSigned decimalString
  cases v with
  | ofNat m =>
    simp only [Int.ofNat_eq_coe] at h ⊢
    have hm : m < 4294967296 := by omega
    have : ¬ ((m : Int) < 0) := by omega
    simp only [this, if_false]
    show String.mk (digitsLoop 10 32 m []) = Nat.repr m
    rw [digitsLoop_eq_toDigits 10 (by decide) m hm]
    rfl
  | negSucc m =>
    have hneg := Int.negSucc_lt_zero m
    have hm : m + 1 < 4294967296 := by
      have := Int.negSucc_eq m
      omega
    have : (Int.negSucc m) < 0 := hneg
    simp only [this, if_true]
    show String.mk ('-' :: digitsLoop 10 32 (m + 1) []) = "-" ++ Nat.repr (m + 1)
    rw [digitsLoop_eq_toDigits 10 (by decide) (m + 1) hm]
    rfl

theorem toUInt32_eq (v : Int) (h : IsInt32 v) :
    toUInt32 v = (if v < 0 then v + 4294967296 else v).toNat := by
  unfold IsInt32 at h
  unfold toUInt32
  split
  · congr 1; omega
  · congr 1; omega

theorem convOctal_eq (v : Int) (h : IsInt32 v) :
    String.mk (convUnsigned 8 (toUInt32 v)) = octalString v := by
  unfold octalString
  rw [← toUInt32_eq v h]
  rw [convUnsigned_eq 8 (by decide)]
  unfold IsInt32 at h
  unfold IsUInt32 toUInt32
  omega

theorem mountDataOf_unfold (u g m : Int) :
    mountDataOf u g m = String.mk ("nls=utf8,uid=".data ++ (convSigned u ++ (",gid=".data ++
      (convSigned g ++ (",fmask=".data ++ (convUnsigned 8 (toUInt32 m) ++ (",dmask=".data ++
      convUnsigned 8 (toUInt32 m)))))))) := by
  unfold mountDataOf StringPrintf
  congr 1
  show vformat ['n','l','s','=','u','t','f','8',',','u','i','d','=','%','d',',','g','i','d','=','%','d',',','f','m','a','s','k','=','%','o',',','d','m','a','s','k','=','%','o'] _ = _
  simp only [vformat]
  simp

theorem mountDataOf_eq (u g m : Int) (hu : IsInt32 u) (hg : IsInt32 g) (hm : IsInt32 m) :
    mountDataOf u g m = "nls=utf8,uid=" ++ decimalString u ++ ",gid=" ++ decimalString g ++
      ",fmask=" ++ octalString m ++ ",dmask=" ++ octalString m := by
  rw [mountDataOf_unfold, ← convSigned_eq u hu, ← convSigned_eq g hg, ← convOctal_eq m hm]
  apply String.ext
  simp [String.data_append]


theorem Mount_unfold (env : Env) (source target : String) (ro remount executable : Bool)
    (ownerUid ownerGid permMask : Int) (createLost : Bool) (s : State) :
    Mount env source target ro remount executable ownerUid ownerGid permMask createLost s =
      (if (env.mount s ⟨source, target, "ntfs", mountFlagsOf ro remount executable,
            mountDataOf ownerUid ownerGid permMask⟩).1 ≠ 0 ∧ ro = false ∧
          (env.mount s ⟨source, target, "ntfs", mountFlagsOf ro remount executable,
            mountDataOf ownerUid ownerGid permMask⟩).2 = EROFS then
        sysMount env ⟨source, target, "ntfs", mountFlagsOf ro remount executable ||| MS_RDONLY,
            mountDataOf ownerUid ownerGid permMask⟩
          (PLOG LogSeverity.ERROR ("Mounting " ++ source ++ " failed; attempting read-only")
            (sysMount env ⟨source, target, "ntfs", mountFlagsOf ro remount executable,
              mountDataOf ownerUid ownerGid permMask⟩ s).2)
      else
        sysMount env ⟨source, target, "ntfs", mountFlagsOf ro remount executable,
          mountDataOf ownerUid ownerGid permMask⟩ s) := by
  rfl

theorem Mount_emitted (env : Env) (source target : String) (ro remount executable : Bool)
    (ownerUid ownerGid permMask : Int) (createLost : Bool) (s : State)
    (first : MountCall)
    (hfirst : first = ⟨source, target, "ntfs", mountFlagsOf ro remount executable,
            mountDataOf ownerUid ownerGid permMask⟩) :
    emitted s (Mount env source target ro remount executable ownerUid ownerGid permMask
        createLost s).2 =
      if (env.mount s first).1 ≠ 0 ∧ ro = false ∧ (env.mount s first).2 = EROFS then
        [Event.mount first (env.mount s first).1 (env.mount s first).2,
         Event.log LogSeverity.ERROR ("Mounting " ++ source ++ " failed; attempting read-only")
           (some (env.mount s first).2),
         Event.mount { first with flags := first.flags ||| MS_RDONLY }
           (Mount env source target ro remount executable ownerUid ownerGid permMask
             createLost s).1
           (Mount env source target ro remount executable ownerUid ownerGid permMask
             createLost s).2.errno]
      else [Event.mount first (env.mount s first).1 (env.mount s first).2] := by
  subst hfirst
  rw [Mount_unfold]
  split
  · simp only [sysMount, PLOG, List.append_assoc]
    rw [emitted_append]
    rfl
  · simp only [sysMount]
    rw [emitted_append]


theorem Mount_mountCalls (env : Env) (source target : String) (ro remount executable : Bool)
    (ownerUid ownerGid permMask : Int) (createLost : Bool) (s : State)
    (first : MountCall)
    (hfirst : first = ⟨source, target, "ntfs", mountFlagsOf ro remount executable,
            mountDataOf ownerUid ownerGid permMask⟩) :
    mountCalls (emitted s (Mount env source target ro remount executable ownerUid ownerGid
        permMask createLost s).2) =
      first :: (if (env.mount s first).1 ≠ 0 ∧ ro = false ∧ (env.mount s first).2 = EROFS
        then [{ first with flags := first.flags ||| MS_RDONLY }] else []) := by
  rw [Mount_emitted env source target ro remount executable ownerUid ownerGid permMask
    createLost s first hfirst]
  split <;> simp [mountCalls]

theorem mountFlagsOf_lt (ro remount executable : Bool) :
    mountFlagsOf ro remount executable < 2048 := by
  cases ro <;> cases remount <;> cases executable <;> decide

theorem mountFlagsOf_testBit (ro remount executable : Bool) (i : Nat) :
    (mountFlagsOf ro remount executable).testBit i = true ↔
      (2 ^ i = MS_NODEV ∨ 2 ^ i = MS_NOSUID ∨ 2 ^ i = MS_DIRSYNC ∨ 2 ^ i = MS_NOATIME ∨
        (2 ^ i = MS_NOEXEC ∧ executable = false) ∨ (2 ^ i = MS_RDONLY ∧ ro = true) ∨
        (2 ^ i = MS_REMOUNT ∧ remount = true)) := by
  by_cases hi : i < 11
  · interval_cases i <;> cases ro <;> cases remount <;> cases executable <;> decide
  · have h2 : 2 ^ 11 ≤ 2 ^ i := Nat.pow_le_pow_right (by decide) (by omega)
    have hlt : mountFlagsOf ro remount executable < 2 ^ i :=
      Nat.lt_of_lt_of_le (mountFlagsOf_lt ro remount executable) h2
    rw [Nat.testBit_lt_two_pow hlt]
    simp only [MS_NODEV, MS_NOSUID, MS_DIRSYNC, MS_NOATIME, MS_NOEXEC, MS_RDONLY, MS_REMOUNT]
    have h3 : (2:Nat) ^ 11 = 2048 := by decide
    constructor
    · intro h; cases h
    · intro h; omega

theorem mountFlagsOf_masks (ro remount executable : Bool) :
    mountFlagsOf ro remount executable &&& MS_NOEXEC = (if executable then 0 else MS_NOEXEC) ∧
    mountFlagsOf ro remount executable &&& MS_RDONLY = (if ro then MS_RDONLY else 0) ∧
    mountFlagsOf ro remount executable &&& MS_REMOUNT = (if remount then MS_REMOUNT else 0) := by
  cases ro <;> cases remount <;> cases executable <;> decide

/-- C1: a second mount call is issued exactly when the first one returned nonzero, `ro` is
false and `errno` is `EROFS`; it is then the only retry, it carries the first call's source,
target, filesystem type and options and the first call's flags with `MS_RDONLY` or-ed in;
with `ro` true exactly one call is issued whatever its outcome. -/
theorem Mount_retry_iff_erofs (env : Env) (source target : String)
    (ro remount executable : Bool) (ownerUid ownerGid permMask : Int) (createLost : Bool)
    (s : State) :
    ∃ first : MountCall,
      first.source = source ∧ first.target = target ∧ first.fstype = "ntfs" ∧
      mountCalls (emitted s (Mount env source target ro remount executable ownerUid ownerGid
          permMask createLost s).2) =
        first :: (if (env.mount s first).1 ≠ 0 ∧ ro = false ∧ (env.mount s first).2 = EROFS
          then [{ first with flags := first.flags ||| MS_RDONLY }] else []) ∧
      ((mountCalls (emitted s (Mount env source target ro remount executable ownerUid ownerGid
          permMask createLost s).2)).length = 2 ↔
        ((env.mount s first).1 ≠ 0 ∧ ro = false ∧ (env.mount s first).2 = EROFS)) ∧
      (mountCalls (emitted s (Mount env source target ro remount executable ownerUid ownerGid
          permMask createLost s).2)).length ≤ 2 ∧
      (ro = true →
        (mountCalls (emitted s (Mount env source target ro remount executable ownerUid
          ownerGid permMask createLost s).2)).length = 1) := by
  refine ⟨⟨source, target, "ntfs", mountFlagsOf ro remount executable,
    mountDataOf ownerUid ownerGid permMask⟩, rfl, rfl, rfl, ?_⟩
  rw [Mount_mountCalls env source target ro remount executable ownerUid ownerGid permMask
    createLost s _ rfl]
  split
  · rename_i h
    refine ⟨by simp [mountCalls], by simpa [mountCalls] using h, by simp [mountCalls], ?_⟩
    intro hro
    rw [hro] at h
    simp at h
  · rename_i h
    refine ⟨by simp [mountCalls], by simpa [mountCalls] using h, by simp [mountCalls], ?_⟩
    intro _
    simp [mountCalls]

/-- C1, instance: a read-only mount that fails with `EROFS` is not retried. -/
theorem Mount_retry_iff_erofs_witness :
    (mountCalls (emitted s0 (Mount (stubEnv (0, 0) true 0 (-1, EROFS) (0, 0)) "/dev/block/sda1"
      "/mnt/media_rw/disk" true false false 1000 1000 7 false s0).2)).length = 1 :=
  (Mount_retry_iff_erofs (stubEnv (0, 0) true 0 (-1, EROFS) (0, 0)) "/dev/block/sda1"
    "/mnt/media_rw/disk" true false false 1000 1000 7 false s0).elim
    (fun _ h => h.2.2.2.2.2.2 rfl)

/-- C2: the flags of the first mount call are `MS_NODEV | MS_NOSUID | MS_DIRSYNC | MS_NOATIME`
plus `MS_NOEXEC` iff `executable` is false, `MS_RDONLY` iff `ro` is true and `MS_REMOUNT` iff
`remount` is true; bit by bit, nothing else is set. -/
theorem Mount_first_flags (env : Env) (source target : String)
    (ro remount executable : Bool) (ownerUid ownerGid permMask : Int) (createLost : Bool)
    (s : State) :
    ∃ (first : MountCall) (rest : List MountCall),
      mountCalls (emitted s (Mount env source target ro remount executable ownerUid ownerGid
          permMask createLost s).2) = first :: rest ∧
      first.flags = MS_NODEV ||| MS_NOSUID ||| MS_DIRSYNC ||| MS_NOATIME |||
          (if executable then 0 else MS_NOEXEC) ||| (if ro then MS_RDONLY else 0) |||
          (if remount then MS_REMOUNT else 0) ∧
      (∀ i : Nat, first.flags.testBit i = true ↔
        (2 ^ i = MS_NODEV ∨ 2 ^ i = MS_NOSUID ∨ 2 ^ i = MS_DIRSYNC ∨ 2 ^ i = MS_NOATIME ∨
          (2 ^ i = MS_NOEXEC ∧ executable = false) ∨ (2 ^ i = MS_RDONLY ∧ ro = true) ∨
          (2 ^ i = MS_REMOUNT ∧ remount = true))) ∧
      first.flags &&& MS_NOEXEC = (if executable then 0 else MS_NOEXEC) ∧
      first.flags &&& MS_RDONLY = (if ro then MS_RDONLY else 0) ∧
      first.flags &&& MS_REMOUNT = (if remount then MS_REMOUNT else 0) := by
  refine ⟨⟨source, target, "ntfs", mountFlagsOf ro remount executable,
    mountDataOf ownerUid ownerGid permMask⟩, _,
    Mount_mountCalls env source target ro remount executable ownerUid ownerGid permMask
      createLost s _ rfl, rfl, ?_, ?_, ?_, ?_⟩
  · exact mountFlagsOf_testBit ro remount executable
  · exact (mountFlagsOf_masks ro remount executable).1
  · exact (mountFlagsOf_masks ro remount executable).2.1
  · exact (mountFlagsOf_masks ro remount executable).2.2


theorem Mount_data (env : Env) (source target : String) (ro remount executable : Bool)
    (ownerUid ownerGid permMask : Int) (createLost : Bool) (s : State) :
    mountCalls (emitted s (Mount env source target ro remount executable ownerUid ownerGid
        permMask createLost s).2) ≠ [] ∧
    ∀ c ∈ mountCalls (emitted s (Mount env source target ro remount executable ownerUid
        ownerGid permMask createLost s).2), c.data = mountDataOf ownerUid ownerGid permMask := by
  rw [Mount_mountCalls env source target ro remount executable ownerUid ownerGid permMask
    createLost s _ rfl]
  refine ⟨by simp, ?_⟩
  intro c hc
  split at hc
  · simp at hc
    rcases hc with rfl | rfl <;> rfl
  · simp at hc
    rw [hc]

/-- C3, as stated, fails: for uid 1000, gid 1000 and mask 7 the options string of the mount
call is `nls=utf8,uid=1000,gid=1000,fmask=7,dmask=7`, because `%o` does not pad, and that is
not the string `nls=utf8,uid=1000,gid=1000,fmask=0007,dmask=0007`. -/
theorem Mount_options_padded_counterexample :
    (mountCalls (emitted s0 (Mount (stubEnv (0, 0) true 0 (0, 0) (0, 0)) "/dev/block/sda1"
      "/mnt/media_rw/disk" false false false 1000 1000 7 false s0).2)).map MountCall.data =
      ["nls=utf8,uid=1000,gid=1000,fmask=7,dmask=7"] ∧
    ¬ (∀ c ∈ mountCalls (emitted s0 (Mount (stubEnv (0, 0) true 0 (0, 0) (0, 0))
      "/dev/block/sda1" "/mnt/media_rw/disk" false false false 1000 1000 7 false s0).2),
      c.data = "nls=utf8,uid=1000,gid=1000,fmask=0007,dmask=0007") := by
  decide

/-- C3, amended: for uid 1000, gid 1000 and mask 7 at least one mount call is issued and
every mount call carries the options string `nls=utf8,uid=1000,gid=1000,fmask=7,dmask=7`. -/
theorem Mount_options_1000 (env : Env) (source target : String)
    (ro remount executable : Bool) (createLost : Bool) (s : State) :
    mountCalls (emitted s (Mount env source target ro remount executable 1000 1000 7
        createLost s).2) ≠ [] ∧
    ∀ c ∈ mountCalls (emitted s (Mount env source target ro remount executable 1000 1000 7
        createLost s).2), c.data = "nls=utf8,uid=1000,gid=1000,fmask=7,dmask=7" := by
  have h := Mount_data env source target ro remount executable 1000 1000 7 createLost s
  have hd : mountDataOf 1000 1000 7 = "nls=utf8,uid=1000,gid=1000,fmask=7,dmask=7" := by decide
  rw [hd] at h
  exact h

/-- C3, instance: a writable mount that fails with `EROFS` is retried, and both calls carry
the options string `nls=utf8,uid=1000,gid=1000,fmask=7,dmask=7`. -/
theorem Mount_options_1000_witness :
    (mountCalls (emitted s0 (Mount (stubEnv (0, 0) true 0 (-1, EROFS) (0, 0)) "/dev/block/sda1"
      "/mnt/media_rw/disk" false false false 1000 1000 7 false s0).2)).map MountCall.data =
      ["nls=utf8,uid=1000,gid=1000,fmask=7,dmask=7",
       "nls=utf8,uid=1000,gid=1000,fmask=7,dmask=7"] := by
  have h := (Mount_options_1000 (stubEnv (0, 0) true 0 (-1, EROFS) (0, 0)) "/dev/block/sda1"
      "/mnt/media_rw/disk" false false false false s0).2
  have hl : (mountCalls (emitted s0 (Mount (stubEnv (0, 0) true 0 (-1, EROFS) (0, 0))
      "/dev/block/sda1" "/mnt/media_rw/disk" false false false 1000 1000 7 false s0).2)).length
      = 2 := by decide
  match hm : mountCalls (emitted s0 (Mount (stubEnv (0, 0) true 0 (-1, EROFS) (0, 0))
      "/dev/block/sda1" "/mnt/media_rw/disk" false false false 1000 1000 7 false s0).2), hl with
  | [a, b], _ =>
    rw [hm] at h
    simp only [List.map]
    rw [h a (by simp), h b (by simp)]

/-- C4: for 32-bit `ownerUid`, `ownerGid` and `permMask`, every mount call (there is at least
one) carries the options string `nls=utf8,uid=<D uid>,gid=<D gid>,fmask=<O mask>,dmask=<O mask>`
with `D` the signed decimal numeral and `O` the unpadded octal numeral of the mask taken as an
unsigned 32-bit value; the right-hand side mentions no other parameter of `Mount`. -/
theorem Mount_options_format (env : Env) (source target : String)
    (ro remount executable : Bool) (ownerUid ownerGid permMask : Int) (createLost : Bool)
    (s : State) (hu : IsInt32 ownerUid) (hg : IsInt32 ownerGid) (hm : IsInt32 permMask) :
    mountCalls (emitted s (Mount env source target ro remount executable ownerUid ownerGid
        permMask createLost s).2) ≠ [] ∧
    ∀ c ∈ mountCalls (emitted s (Mount env source target ro remount executable ownerUid
        ownerGid permMask createLost s).2),
      c.data = "nls=utf8,uid=" ++ decimalString ownerUid ++ ",gid=" ++ decimalString ownerGid ++
        ",fmask=" ++ octalString permMask ++ ",dmask=" ++ octalString permMask := by
  have h := Mount_data env source target ro remount executable ownerUid ownerGid permMask
    createLost s
  rw [mountDataOf_eq ownerUid ownerGid permMask hu hg hm] at h
  exact h

/-- C4, instance: uid -1, gid 10010 and mask -1 give
`nls=utf8,uid=-1,gid=10010,fmask=37777777777,dmask=37777777777`. -/
theorem Mount_options_format_witness :
    (IsInt32 (-1) ∧ IsInt32 10010) ∧
    mountCalls (emitted s0 (Mount (stubEnv (0, 0) true 0 (0, 0) (0, 0))
        "/dev/block/sda1" "/mnt/media_rw/disk" false false false (-1) 10010 (-1) false s0).2)
      ≠ [] ∧
    ∀ c ∈ mountCalls (emitted s0 (Mount (stubEnv (0, 0) true 0 (0, 0) (0, 0))
        "/dev/block/sda1" "/mnt/media_rw/disk" false false false (-1) 10010 (-1) false s0).2),
      c.data = "nls=utf8,uid=-1,gid=10010,fmask=37777777777,dmask=37777777777" :=
  ⟨by decide, Mount_options_format (stubEnv (0, 0) true 0 (0, 0) (0, 0)) "/dev/block/sda1"
    "/mnt/media_rw/disk" false false false (-1) 10010 (-1) false s0 (by decide) (by decide)
    (by decide)⟩


theorem Mount_result (env : Env) (source target : String) (ro remount executable : Bool)
    (ownerUid ownerGid permMask : Int) (createLost : Bool) (s : State)
    (first : MountCall) (rc1 e1 rc2 e2 : Int)
    (hfirst : first = ⟨source, target, "ntfs", mountFlagsOf ro remount executable,
      mountDataOf ownerUid ownerGid permMask⟩)
    (h1 : env.mount s first = (rc1, e1))
    (h2 : env.mount ⟨e1, s.trace ++ [Event.mount first rc1 e1,
        Event.log LogSeverity.ERROR ("Mounting " ++ source ++ " failed; attempting read-only")
          (some e1)]⟩ { first with flags := first.flags ||| MS_RDONLY } = (rc2, e2)) :
    Mount env source target ro remount executable ownerUid ownerGid permMask createLost s =
      if rc1 ≠ 0 ∧ ro = false ∧ e1 = EROFS then
        (rc2, ⟨e2, s.trace ++ [Event.mount first rc1 e1,
          Event.log LogSeverity.ERROR ("Mounting " ++ source ++ " failed; attempting read-only")
            (some e1),
          Event.mount { first with flags := first.flags ||| MS_RDONLY } rc2 e2]⟩)
      else (rc1, ⟨e1, s.trace ++ [Event.mount first rc1 e1]⟩) := by
  subst hfirst
  rw [Mount_unfold]
  simp only [h1]
  by_cases hc : rc1 ≠ 0 ∧ ro = false ∧ e1 = EROFS
  · rw [if_pos hc, if_pos hc]
    simp only [sysMount, PLOG, h1, List.append_assoc, List.singleton_append] at h2 ⊢
    rw [h2]
    rfl
  · rw [if_neg hc, if_neg hc]
    simp only [sysMount, h1]

/-- C9: `Mount` returns, untranslated, the status of the last mount call it issued.  With
`(rc1, e1)` the answer of `mount(2)` to the first call and `(rc2, e2)` its answer to the
read-only retry (made after the first call and the log line): when the retry happens the
trace is first call, log line, retry, and `Mount` returns `rc2` with `errno = e2`; otherwise
the trace is the first call alone and `Mount` returns `rc1` with `errno = e1`.  In particular
a first call that fails with an `errno` other than `EROFS`, or fails while `ro` is true, is
the only call, and its nonzero status and its `errno` come back unchanged. -/
theorem Mount_returns_last_status (env : Env) (source target : String)
    (ro remount executable : Bool) (ownerUid ownerGid permMask : Int) (createLost : Bool)
    (s : State) :
    (mountStatuses (emitted s (Mount env source target ro remount executable ownerUid ownerGid
        permMask createLost s).2)).getLast? =
      some (Mount env source target ro remount executable ownerUid ownerGid permMask
        createLost s).1 ∧
    ∃ (first : MountCall) (rc1 e1 rc2 e2 : Int),
      first.source = source ∧ first.target = target ∧ first.fstype = "ntfs" ∧
      env.mount s first = (rc1, e1) ∧
      env.mount ⟨e1, s.trace ++ [Event.mount first rc1 e1,
        Event.log LogSeverity.ERROR ("Mounting " ++ source ++ " failed; attempting read-only")
          (some e1)]⟩ { first with flags := first.flags ||| MS_RDONLY } = (rc2, e2) ∧
      emitted s (Mount env source target ro remount executable ownerUid ownerGid permMask
          createLost s).2 =
        (if rc1 ≠ 0 ∧ ro = false ∧ e1 = EROFS then
          [Event.mount first rc1 e1,
           Event.log LogSeverity.ERROR
             ("Mounting " ++ source ++ " failed; attempting read-only") (some e1),
           Event.mount { first with flags := first.flags ||| MS_RDONLY } rc2 e2]
        else [Event.mount first rc1 e1]) ∧
      (Mount env source target ro remount executable ownerUid ownerGid permMask
          createLost s).1 = (if rc1 ≠ 0 ∧ ro = false ∧ e1 = EROFS then rc2 else rc1) ∧
      (Mount env source target ro remount executable ownerUid ownerGid permMask
          createLost s).2.errno = (if rc1 ≠ 0 ∧ ro = false ∧ e1 = EROFS then e2 else e1) ∧
      (rc1 ≠ 0 ∧ (e1 ≠ EROFS ∨ ro = true) →
        mountCalls (emitted s (Mount env source target ro remount executable ownerUid
          ownerGid permMask createLost s).2) = [first] ∧
        (Mount env source target ro remount executable ownerUid ownerGid permMask
          createLost s).1 = rc1 ∧
        (Mount env source target ro remount executable ownerUid ownerGid permMask
          createLost s).1 ≠ 0 ∧
        (Mount env source target ro remount executable ownerUid ownerGid permMask
          createLost s).2.errno = e1) := by
  rcases h1 : env.mount s ⟨source, target, "ntfs", mountFlagsOf ro remount executable,
    mountDataOf ownerUid ownerGid permMask⟩ with ⟨rc1, e1⟩
  rcases h2 : env.mount ⟨e1, s.trace ++ [Event.mount ⟨source, target, "ntfs",
      mountFlagsOf ro remount executable, mountDataOf ownerUid ownerGid permMask⟩ rc1 e1,
      Event.log LogSeverity.ERROR ("Mounting " ++ source ++ " failed; attempting read-only")
        (some e1)]⟩
    ⟨source, target, "ntfs", mountFlagsOf ro remount executable ||| MS_RDONLY,
      mountDataOf ownerUid ownerGid permMask⟩ with ⟨rc2, e2⟩
  have hres := Mount_result env source target ro remount executable ownerUid ownerGid permMask
    createLost s _ rc1 e1 rc2 e2 rfl h1 h2
  by_cases hc : rc1 ≠ 0 ∧ ro = false ∧ e1 = EROFS
  · rw [if_pos hc] at hres
    refine ⟨?_, _, rc1, e1, rc2, e2, rfl, rfl, rfl, h1, h2, ?_, ?_, ?_, ?_⟩
    · rw [hres, emitted_append]; rfl
    · rw [hres, emitted_append, if_pos hc]
    · rw [hres, if_pos hc]
    · rw [hres, if_pos hc]
    · rintro ⟨-, h | h⟩
      · exact absurd hc.2.2 h
      · rw [h] at hc; exact absurd hc.2.1 (by decide)
  · rw [if_neg hc] at hres
    refine ⟨?_, _, rc1, e1, rc2, e2, rfl, rfl, rfl, h1, h2, ?_, ?_, ?_, ?_⟩
    · rw [hres, emitted_append]; rfl
    · rw [hres, emitted_append, if_neg hc]
    · rw [hres, if_neg hc]
    · rw [hres, if_neg hc]
    · rintro ⟨h0, -⟩
      rw [hres, emitted_append]
      exact ⟨rfl, rfl, h0, rfl⟩

/-- C9, instance: a writable mount whose first call fails with `EROFS` and whose retry fails
with `EACCES` (13) returns the retry's -1 and leaves `errno = 13`. -/
theorem Mount_returns_last_status_witness :
    (Mount (stubEnv (0, 0) true 0 (-7, EROFS) (-1, 13)) "/dev/block/sda1" "/mnt/media_rw/disk"
      false false false 1000 1000 7 false s0).1 = -1 ∧
    (Mount (stubEnv (0, 0) true 0 (-7, EROFS) (-1, 13)) "/dev/block/sda1" "/mnt/media_rw/disk"
      false false false 1000 1000 7 false s0).2.errno = 13 := by
  obtain ⟨-, first, rc1, e1, rc2, e2, -, -, -, h1, h2, -, hr, he, -⟩ :=
    Mount_returns_last_status (stubEnv (0, 0) true 0 (-7, EROFS) (-1, 13)) "/dev/block/sda1"
      "/mnt/media_rw/disk" false false false 1000 1000 7 false s0
  have h1c : ((-7 : Int), EROFS) = (rc1, e1) := h1
  have h2c : ((-1 : Int), (13 : Int)) = (rc2, e2) := h2
  injection h1c with ha hb
  injection h2c with hc hd
  subst ha hb hc hd
  exact ⟨hr, he⟩

theorem Check_unfold (env : Env) (source : String) (s : State) (rc e : Int)
    (h : env.forkExecvp s ["/system/bin/fsck.ntfs", source] false env.sFsckUntrustedContext
      = (rc, e)) :
    Check env source s =
      if rc = 0 then
        (0, ⟨e, s.trace ++ [Event.forkExecvp ["/system/bin/fsck.ntfs", source] false
          env.sFsckUntrustedContext rc, Event.log LogSeverity.INFO "Check NTFS OK" none]⟩)
      else
        (-1, ⟨ EIO, s.trace ++ [Event.forkExecvp ["/system/bin/fsck.ntfs", source] false
          env.sFsckUntrustedContext rc,
          Event.log LogSeverity.ERROR ("Check NTFS failed (code " ++ toString rc ++ ")") none]⟩)
    := by
  simp only [Check, callForkExecvp, kFsckPath, h, LOG, setErrno, List.append_assoc,
    List.singleton_append]

theorem Format_unfold (env : Env) (source : String) (numSectors : Nat) (s : State)
    (a ea rc e : Int)
    (ha : env.access s "/system/bin/mkfs.ntfs" 1 = (a, ea))
    (hf : env.forkExecvp ⟨ea, s.trace ++ [Event.access "/system/bin/mkfs.ntfs" 1 a]⟩
      (if numSectors ≠ 0 then
        ["/system/bin/mkfs.ntfs", source, StringPrintf "%u" [PrintfArg.uint numSectors]]
        else ["/system/bin/mkfs.ntfs", source]) false none = (rc, e)) :
    Format env source numSectors s =
      if a ≠ 0 then
        (-1, ⟨ea, s.trace ++ [Event.access "/system/bin/mkfs.ntfs" 1 a,
          Event.log LogSeverity.ERROR "Problem accessing /system/bin/mkfs.ntfs" (some ea)]⟩)
      else if rc = 0 then
        (0, ⟨e, s.trace ++ [Event.access "/system/bin/mkfs.ntfs" 1 a,
          Event.forkExecvp (if numSectors ≠ 0 then
            ["/system/bin/mkfs.ntfs", source, StringPrintf "%u" [PrintfArg.uint numSectors]]
            else ["/system/bin/mkfs.ntfs", source]) false none rc,
          Event.log LogSeverity.INFO "Filesystem formatted" none]⟩)
      else
        (-1, ⟨ EIO, s.trace ++ [Event.access "/system/bin/mkfs.ntfs" 1 a,
          Event.forkExecvp (if numSectors ≠ 0 then
            ["/system/bin/mkfs.ntfs", source, StringPrintf "%u" [PrintfArg.uint numSectors]]
            else ["/system/bin/mkfs.ntfs", source]) false none rc,
          Event.log LogSeverity.ERROR ("Format failed (code " ++ toString rc ++ ")") none]⟩)
    := by
  have hp : "Problem accessing " ++ kMkfsPath = "Problem accessing /system/bin/mkfs.ntfs" := by
    decide
  have hcmd : (if numSectors ≠ 0 then
      ["/system/bin/mkfs.ntfs", source] ++ [StringPrintf "%u" [PrintfArg.uint numSectors]]
      else ["/system/bin/mkfs.ntfs", source]) =
      (if numSectors ≠ 0 then
        ["/system/bin/mkfs.ntfs", source, StringPrintf "%u" [PrintfArg.uint numSectors]]
        else ["/system/bin/mkfs.ntfs", source]) := by
    split <;> rfl
  unfold Format
  simp only [sysAccess, callForkExecvp, hp, LOG, PLOG, setErrno]
  simp only [kMkfsPath, X_OK, ha, hcmd, hf, List.append_assoc, List.singleton_append]
  by_cases h1 : a = 0
  · by_cases h2 : rc = 0
    · simp [h1, h2]
    · simp [h1, h2]
  · simp [h1]


theorem StringPrintf_u (n : Nat) (h : IsUInt32 n) :
    StringPrintf "%u" [PrintfArg.uint n] = toString n := by
  unfold StringPrintf
  show String.mk (vformat ['%', 'u'] [PrintfArg.uint n]) = Nat.repr n
  simp only [vformat, List.append_nil]
  rw [convUnsigned_eq 10 (by decide) n h]
  rfl

/-- C5: when the format tool is executable, exactly one child is spawned and its argument
vector is `[/system/bin/mkfs.ntfs, source]` for `numSectors = 0` and
`[/system/bin/mkfs.ntfs, source, decimal numeral of numSectors]` otherwise. -/
theorem Format_argv (env : Env) (source : String) (numSectors : Nat) (s : State)
    (hn : IsUInt32 numSectors)
    (hx : (env.access s "/system/bin/mkfs.ntfs" X_OK).1 = 0) :
    spawned (emitted s (Format env source numSectors s).2) =
      [if numSectors = 0 then ["/system/bin/mkfs.ntfs", source]
        else ["/system/bin/mkfs.ntfs", source, toString numSectors]] := by
  simp only [X_OK] at hx
  rcases hA : env.access s "/system/bin/mkfs.ntfs" 1 with ⟨a, ea⟩
  rw [hA] at hx
  simp only at hx
  subst hx
  rcases hF : env.forkExecvp ⟨ea, s.trace ++ [Event.access "/system/bin/mkfs.ntfs" 1 0]⟩
    (if numSectors ≠ 0 then
      ["/system/bin/mkfs.ntfs", source, StringPrintf "%u" [PrintfArg.uint numSectors]]
      else ["/system/bin/mkfs.ntfs", source]) false none with ⟨rc, e⟩
  rw [Format_unfold env source numSectors s 0 ea rc e hA hF, StringPrintf_u numSectors hn]
  by_cases h0 : numSectors = 0 <;> by_cases h1 : rc = 0 <;>
    simp [emitted, spawned, h0, h1]

/-- C5, instance: formatting `/dev/block/sda1` with 4294967295 sectors spawns
`mkfs.ntfs /dev/block/sda1 4294967295`. -/
theorem Format_argv_witness :
    IsUInt32 4294967295 ∧
    spawned (emitted s0 (Format (stubEnv (0, 0) true 0 (0, 0) (0, 0)) "/dev/block/sda1"
      4294967295 s0).2) = [["/system/bin/mkfs.ntfs", "/dev/block/sda1", "4294967295"]] :=
  ⟨by decide, Format_argv (stubEnv (0, 0) true 0 (0, 0) (0, 0)) "/dev/block/sda1" 4294967295 s0
    (by decide) (by decide)⟩

/-- C6: when `access` on the format tool returns nonzero, `Format` returns -1 and spawns no
child process. -/
theorem Format_tool_not_executable (env : Env) (source : String) (numSectors : Nat)
    (s : State) (hx : (env.access s "/system/bin/mkfs.ntfs" X_OK).1 ≠ 0) :
    (Format env source numSectors s).1 = -1 ∧
    spawned (emitted s (Format env source numSectors s).2) = [] := by
  simp only [X_OK] at hx
  rcases hA : env.access s "/system/bin/mkfs.ntfs" 1 with ⟨a, ea⟩
  rw [hA] at hx
  simp only at hx
  rcases hF : env.forkExecvp ⟨ea, s.trace ++ [Event.access "/system/bin/mkfs.ntfs" 1 a]⟩
    (if numSectors ≠ 0 then
      ["/system/bin/mkfs.ntfs", source, StringPrintf "%u" [PrintfArg.uint numSectors]]
      else ["/system/bin/mkfs.ntfs", source]) false none with ⟨rc, e⟩
  rw [Format_unfold env source numSectors s a ea rc e hA hF]
  simp [hx, emitted, spawned]

/-- C6, instance: with `access` answering -1 (`errno` 2, `ENOENT`), `Format` returns -1 and
spawns nothing. -/
theorem Format_tool_not_executable_witness :
    (Format (stubEnv (-1, 2) true 0 (0, 0) (0, 0)) "/dev/block/sda1" 0 s0).1 = -1 ∧
    spawned (emitted s0 (Format (stubEnv (-1, 2) true 0 (0, 0) (0, 0)) "/dev/block/sda1" 0
      s0).2) = [] :=
  Format_tool_not_executable (stubEnv (-1, 2) true 0 (0, 0) (0, 0)) "/dev/block/sda1" 0 s0
    (by decide)

/-- C7: `Check` spawns `[/system/bin/fsck.ntfs, source]` and, with `rc` the exit code the
child-process helper answers for that call, returns 0 iff `rc = 0` and returns -1 with
`errno = EIO` for every `rc ≠ 0`.  When the format tool is executable `Format` does the same
with the exit code the helper answers for its argument vector.  Hence two nonzero exit codes
give the same status and the same `errno`. -/
theorem exit_codes_collapsed (env : Env) (source : String) (numSectors : Nat) (s : State) :
    (spawned (emitted s (Check env source s).2) = [["/system/bin/fsck.ntfs", source]] ∧
      exitCodes (emitted s (Check env source s).2) =
        [(env.forkExecvp s ["/system/bin/fsck.ntfs", source] false
          env.sFsckUntrustedContext).1] ∧
      ((Check env source s).1 = 0 ↔
        (env.forkExecvp s ["/system/bin/fsck.ntfs", source] false
          env.sFsckUntrustedContext).1 = 0) ∧
      ((env.forkExecvp s ["/system/bin/fsck.ntfs", source] false
          env.sFsckUntrustedContext).1 ≠ 0 →
        (Check env source s).1 = -1 ∧ (Check env source s).2.errno = EIO)) ∧
    ((env.access s "/system/bin/mkfs.ntfs" X_OK).1 = 0 →
      spawned (emitted s (Format env source numSectors s).2) =
        [if numSectors ≠ 0 then
          ["/system/bin/mkfs.ntfs", source, StringPrintf "%u" [PrintfArg.uint numSectors]]
          else ["/system/bin/mkfs.ntfs", source]] ∧
      exitCodes (emitted s (Format env source numSectors s).2) =
        [(env.forkExecvp (sysAccess env "/system/bin/mkfs.ntfs" X_OK s).2
          (if numSectors ≠ 0 then
            ["/system/bin/mkfs.ntfs", source, StringPrintf "%u" [PrintfArg.uint numSectors]]
            else ["/system/bin/mkfs.ntfs", source]) false none).1] ∧
      ((Format env source numSectors s).1 = 0 ↔
        (env.forkExecvp (sysAccess env "/system/bin/mkfs.ntfs" X_OK s).2
          (if numSectors ≠ 0 then
            ["/system/bin/mkfs.ntfs", source, StringPrintf "%u" [PrintfArg.uint numSectors]]
            else ["/system/bin/mkfs.ntfs", source]) false none).1 = 0) ∧
      ((env.forkExecvp (sysAccess env "/system/bin/mkfs.ntfs" X_OK s).2
          (if numSectors ≠ 0 then
            ["/system/bin/mkfs.ntfs", source, StringPrintf "%u" [PrintfArg.uint numSectors]]
            else ["/system/bin/mkfs.ntfs", source]) false none).1 ≠ 0 →
        (Format env source numSectors s).1 = -1 ∧
        (Format env source numSectors s).2.errno = EIO)) := by
  constructor
  · rcases hC : env.forkExecvp s ["/system/bin/fsck.ntfs", source] false
      env.sFsckUntrustedContext with ⟨rc, e⟩
    rw [Check_unfold env source s rc e hC]
    refine ⟨?_, ?_, ?_, ?_⟩
    · by_cases h : rc = 0 <;> simp [emitted, spawned, h]
    · by_cases h : rc = 0 <;> simp [emitted, exitCodes, h]
    · by_cases h : rc = 0 <;> simp [h]
    · intro h
      have h : ¬ rc = 0 := h
      simp [h]
  · intro hx
    simp only [sysAccess, X_OK] at hx ⊢
    rcases hA : env.access s "/system/bin/mkfs.ntfs" 1 with ⟨a, ea⟩
    rw [hA] at hx
    simp only at hx
    subst hx
    rcases hF : env.forkExecvp ⟨ea, s.trace ++ [Event.access "/system/bin/mkfs.ntfs" 1 0]⟩
      (if numSectors ≠ 0 then
        ["/system/bin/mkfs.ntfs", source, StringPrintf "%u" [PrintfArg.uint numSectors]]
        else ["/system/bin/mkfs.ntfs", source]) false none with ⟨rc, e⟩
    rw [Format_unfold env source numSectors s 0 ea rc e hA hF]
    refine ⟨?_, ?_, ?_, ?_⟩
    · by_cases h : rc = 0 <;> simp [emitted, spawned, h]
    · by_cases h : rc = 0 <;> simp [emitted, exitCodes, h]
    · by_cases h : rc = 0 <;> simp [h]
    · intro h
      have h : ¬ rc = 0 := h
      simp [h]

/-- C7, instance: with exit code 0 `Check` and `Format` return 0; with exit codes 1 and 4
they return -1 and set `errno = EIO`. -/
theorem exit_codes_collapsed_witness :
    ((Check (stubEnv (0, 0) true 0 (0, 0) (0, 0)) "/dev/block/sda1" s0).1 = 0 ∧
      (Format (stubEnv (0, 0) true 0 (0, 0) (0, 0)) "/dev/block/sda1" 0 s0).1 = 0) ∧
    ((Check (stubEnv (0, 0) true 1 (0, 0) (0, 0)) "/dev/block/sda1" s0).1 = -1 ∧
      (Check (stubEnv (0, 0) true 1 (0, 0) (0, 0)) "/dev/block/sda1" s0).2.errno = EIO) ∧
    ((Check (stubEnv (0, 0) true 4 (0, 0) (0, 0)) "/dev/block/sda1" s0).1 = -1 ∧
      (Check (stubEnv (0, 0) true 4 (0, 0) (0, 0)) "/dev/block/sda1" s0).2.errno = EIO) ∧
    ((Format (stubEnv (0, 0) true 1 (0, 0) (0, 0)) "/dev/block/sda1" 0 s0).1 = -1 ∧
      (Format (stubEnv (0, 0) true 1 (0, 0) (0, 0)) "/dev/block/sda1" 0 s0).2.errno = EIO) ∧
    ((Format (stubEnv (0, 0) true 4 (0, 0) (0, 0)) "/dev/block/sda1" 0 s0).1 = -1 ∧
      (Format (stubEnv (0, 0) true 4 (0, 0) (0, 0)) "/dev/block/sda1" 0 s0).2.errno = EIO) :=
  ⟨⟨(exit_codes_collapsed (stubEnv (0, 0) true 0 (0, 0) (0, 0)) "/dev/block/sda1" 0
        s0).1.2.2.1.mpr (by decide),
    ((exit_codes_collapsed (stubEnv (0, 0) true 0 (0, 0) (0, 0)) "/dev/block/sda1" 0
        s0).2 (by decide)).2.2.1.mpr (by decide)⟩,
   (exit_codes_collapsed (stubEnv (0, 0) true 1 (0, 0) (0, 0)) "/dev/block/sda1" 0
      s0).1.2.2.2 (by decide),
   (exit_codes_collapsed (stubEnv (0, 0) true 4 (0, 0) (0, 0)) "/dev/block/sda1" 0
      s0).1.2.2.2 (by decide),
   ((exit_codes_collapsed (stubEnv (0, 0) true 1 (0, 0) (0, 0)) "/dev/block/sda1" 0
      s0).2 (by decide)).2.2.2 (by decide),
   ((exit_codes_collapsed (stubEnv (0, 0) true 4 (0, 0) (0, 0)) "/dev/block/sda1" 0
      s0).2 (by decide)).2.2.2 (by decide)⟩

/-- C8: `IsSupported` always yields a Boolean, and it yields `true` exactly when the three
probes, made in order, succeed: `access("/system/bin/fsck.ntfs", X_OK)` returns 0, then
`access("/system/bin/mkfs.ntfs", X_OK)` returns 0, then `IsFilesystemSupported("ntfs")` is
true; in each of the seven other cases it yields `false`. -/
theorem IsSupported_iff_all_probes (env : Env) (s : State) :
    ((IsSupported env s).1 = true ∨ (IsSupported env s).1 = false) ∧
    (IsSupported env s).1 =
      (decide ((env.access s "/system/bin/fsck.ntfs" X_OK).1 = 0) &&
       decide ((env.access (sysAccess env "/system/bin/fsck.ntfs" X_OK s).2
          "/system/bin/mkfs.ntfs" X_OK).1 = 0) &&
       (env.isFilesystemSupported
          (sysAccess env "/system/bin/mkfs.ntfs" X_OK
            (sysAccess env "/system/bin/fsck.ntfs" X_OK s).2).2 "ntfs").1) ∧
    ((IsSupported env s).1 = true ↔
      ((env.access s "/system/bin/fsck.ntfs" X_OK).1 = 0 ∧
       (env.access (sysAccess env "/system/bin/fsck.ntfs" X_OK s).2
          "/system/bin/mkfs.ntfs" X_OK).1 = 0 ∧
       (env.isFilesystemSupported
          (sysAccess env "/system/bin/mkfs.ntfs" X_OK
            (sysAccess env "/system/bin/fsck.ntfs" X_OK s).2).2 "ntfs").1 = true)) := by
  have hval : (IsSupported env s).1 =
      (decide ((env.access s "/system/bin/fsck.ntfs" X_OK).1 = 0) &&
       decide ((env.access (sysAccess env "/system/bin/fsck.ntfs" X_OK s).2
          "/system/bin/mkfs.ntfs" X_OK).1 = 0) &&
       (env.isFilesystemSupported
          (sysAccess env "/system/bin/mkfs.ntfs" X_OK
            (sysAccess env "/system/bin/fsck.ntfs" X_OK s).2).2 "ntfs").1) := by
    unfold IsSupported
    simp only [kFsckPath, kMkfsPath]
    by_cases h1 : (env.access s "/system/bin/fsck.ntfs" X_OK).1 = 0
    · by_cases h2 : (env.access (sysAccess env "/system/bin/fsck.ntfs" X_OK s).2
          "/system/bin/mkfs.ntfs" X_OK).1 = 0
      · have h2c := h2
        simp only [sysAccess, h1] at h2c
        simp [sysAccess, callIsFilesystemSupported, h1, h2c]
      · have h2c := h2
        simp only [sysAccess, h1] at h2c
        simp [sysAccess, h1, h2c]
    · simp [sysAccess, h1]
  refine ⟨?_, hval, ?_⟩
  · cases (IsSupported env s).1 <;> simp
  · rw [hval]
    simp [Bool.and_eq_true, and_assoc]

/-- C10, as stated, fails for `Mount`: a writable mount whose only mount call fails with
`EINVAL` (22) returns -1 and no error-level line was logged during the call. -/
theorem Mount_failure_not_logged :
    (Mount (stubEnv (0, 0) true 0 (-1, 22) (0, 0)) "/dev/block/sda1" "/mnt/media_rw/disk"
      false false false 1000 1000 7 false s0).1 ≠ 0 ∧
    errorLogs (emitted s0 (Mount (stubEnv (0, 0) true 0 (-1, 22) (0, 0)) "/dev/block/sda1"
      "/mnt/media_rw/disk" false false false 1000 1000 7 false s0).2) = [] := by
  decide

/-- C10, amended: a nonzero status of `Check` or of `Format` comes with an error-level log
line emitted during the call; `Mount` emits an error-level line exactly when it attempts the
read-only retry (first mount call nonzero, `ro` false, `errno = EROFS`), and none otherwise. -/
theorem failures_logged (env : Env) (source target : String) (ro remount executable : Bool)
    (ownerUid ownerGid permMask : Int) (createLost : Bool) (numSectors : Nat) (s : State) :
    ((Check env source s).1 ≠ 0 → errorLogs (emitted s (Check env source s).2) ≠ []) ∧
    ((Format env source numSectors s).1 ≠ 0 →
      errorLogs (emitted s (Format env source numSectors s).2) ≠ []) ∧
    (∃ (first : MountCall) (rest : List MountCall),
      mountCalls (emitted s (Mount env source target ro remount executable ownerUid ownerGid
        permMask createLost s).2) = first :: rest ∧
      (errorLogs (emitted s (Mount env source target ro remount executable ownerUid ownerGid
        permMask createLost s).2) ≠ [] ↔
        ((env.mount s first).1 ≠ 0 ∧ ro = false ∧ (env.mount s first).2 = EROFS))) := by
  refine ⟨?_, ?_, ?_⟩
  · rcases hC : env.forkExecvp s ["/system/bin/fsck.ntfs", source] false
      env.sFsckUntrustedContext with ⟨rc, e⟩
    rw [Check_unfold env source s rc e hC]
    by_cases h : rc = 0 <;> simp [emitted, errorLogs, h]
  · rcases hA : env.access s "/system/bin/mkfs.ntfs" 1 with ⟨a, ea⟩
    rcases hF : env.forkExecvp ⟨ea, s.trace ++ [Event.access "/system/bin/mkfs.ntfs" 1 a]⟩
      (if numSectors ≠ 0 then
        ["/system/bin/mkfs.ntfs", source, StringPrintf "%u" [PrintfArg.uint numSectors]]
        else ["/system/bin/mkfs.ntfs", source]) false none with ⟨rc, e⟩
    rw [Format_unfold env source numSectors s a ea rc e hA hF]
    by_cases h1 : a = 0 <;> by_cases h2 : rc = 0 <;> simp [emitted, errorLogs, h1, h2]
  · refine ⟨⟨source, target, "ntfs", mountFlagsOf ro remount executable,
      mountDataOf ownerUid ownerGid permMask⟩, _,
      Mount_mountCalls env source target ro remount executable ownerUid ownerGid permMask
        createLost s _ rfl, ?_⟩
    rw [Mount_emitted env source target ro remount executable ownerUid ownerGid permMask
      createLost s _ rfl]
    split
    · rename_i h
      simp only [errorLogs]
      simpa using h
    · rename_i h
      simp only [errorLogs]
      simpa using h

/-- C10, instance: a failing `Check` (exit code 4) and a failing `Format` (exit code 1) have
each logged an error-level line. -/
theorem failures_logged_witness :
    errorLogs (emitted s0 (Check (stubEnv (0, 0) true 4 (0, 0) (0, 0)) "/dev/block/sda1"
      s0).2) ≠ [] ∧
    errorLogs (emitted s0 (Format (stubEnv (0, 0) true 1 (0, 0) (0, 0)) "/dev/block/sda1" 0
      s0).2) ≠ [] :=
  ⟨(failures_logged (stubEnv (0, 0) true 4 (0, 0) (0, 0)) "/dev/block/sda1"
      "/mnt/media_rw/disk" false false false 1000 1000 7 false 0 s0).1 (by decide),
   (failures_logged (stubEnv (0, 0) true 1 (0, 0) (0, 0)) "/dev/block/sda1"
      "/mnt/media_rw/disk" false false false 1000 1000 7 false 0 s0).2.1 (by decide)⟩

end Ntfs
